import Mathlib

/-!
Verification of the Kunitz-domain HMM pipeline (`hmm.py`, `novelty_check.py`,
`filter_validation_kunitz.py`) against its design specification.

The Python string operations used by the scripts (`str.split`, `str.strip`,
`str.startswith`) are embedded as executable functions on `List Char`; label
and hit files are modelled as lists of lines; identifier sets as
`Finset String`; the derived metrics as rational numbers; the UniProt network
calls of `novelty_check.py` as oracle functions passed in as parameters, where
`none` models a network failure or non-success response.
-/

/-- Decidable equality for `Except`, so that results of the fallible loaders
can be computed on concrete inputs. -/
instance {ε α : Type _} [DecidableEq ε] [DecidableEq α] : DecidableEq (Except ε α) := fun x y =>
  match x, y with
  | Except.ok a, Except.ok b =>
    if h : a = b then Decidable.isTrue (by rw [h]) else Decidable.isFalse (by simp [h])
  | Except.error e, Except.error f =>
    if h : e = f then Decidable.isTrue (by rw [h]) else Decidable.isFalse (by simp [h])
  | Except.ok _, Except.error _ => Decidable.isFalse (by simp)
  | Except.error _, Except.ok _ => Decidable.isFalse (by simp)

namespace KunitzHMM

/-- Characters treated as whitespace by Python `str.split()` / `str.strip()`
(ASCII fragment: space, tab, line feed, carriage return, vertical tab, form feed). -/
def pyIsSpace (c : Char) : Bool :=
  c = ' ' || c = '\t' || c = '\n' || c = '\r' || c = '\x0B' || c = '\x0C'

/-- Split a character list at every character satisfying `p`, keeping empty
segments (the semantics of Python `str.split(sep)` for a one-character `sep`,
before any filtering). -/
def splitPredList (p : Char → Bool) : List Char → List (List Char)
  | [] => [[]]
  | x :: xs =>
    let r := splitPredList p xs
    if p x then [] :: r
    else
      match r with
      | [] => [[x]]
      | h :: t => (x :: h) :: t

/-- Python `s.split(c)` for a one-character separator `c`: empty segments kept. -/
def pySplitChar (c : Char) (s : String) : List String :=
  (splitPredList (fun x => x = c) s.data).map String.mk

/-- Python `s.split()` with no separator: split on whitespace runs, empty
tokens discarded. -/
def pySplitWS (s : String) : List String :=
  ((splitPredList pyIsSpace s.data).map String.mk).filter (fun t => t ≠ "")

/-- Python `s.strip()`: remove leading and trailing whitespace. -/
def pyStrip (s : String) : String :=
  String.mk (((s.data.dropWhile pyIsSpace).reverse.dropWhile pyIsSpace).reverse)

/-- Python `s.startswith("#")`. -/
def startsWithHash (s : String) : Bool :=
  match s.data with
  | [] => false
  | c :: _ => c = '#'

/-- Python `c in s` for a one-character substring `c`. -/
def pyContainsChar (c : Char) (s : String) : Bool :=
  s.data.any (fun x => x = c)

/-- Accumulator loop of `load_labels` (src/hmm.py lines 167-179): comment and
blank lines are skipped; a line is unpacked as `seqid, label = line.strip().split()`
(a line that does not split into exactly two tokens raises, which the
surrounding handler turns into a fatal error); `seqid` goes to the positives
when the label is the string 1, and to the negatives on ANY other label. -/
def load_labels_go (pos neg : Finset String) :
    List String → Except String (Finset String × Finset String)
  | [] => Except.ok (pos, neg)
  | line :: rest =>
    if startsWithHash line || pyStrip line = "" then load_labels_go pos neg rest
    else
      match pySplitWS (pyStrip line) with
      | [seqid, label] =>
        if label = "1" then load_labels_go (insert seqid pos) neg rest
        else load_labels_go pos (insert seqid neg) rest
      | _ => Except.error "Error loading labels"

/-- Embedding of `load_labels` (src/hmm.py lines 167-179) over the lines of a label file:
returns the pair (positives, negatives) or the fatal error. -/
def load_labels (lines : List String) : Except String (Finset String × Finset String) :=
  load_labels_go ∅ ∅ lines

/-- Embedding of `check_label_txt` (src/hmm.py lines 66-75). The file is `none` when
missing; an empty line list models a zero-size file. A line fails the check
exactly when its stripped form is non-blank and does not split into exactly
two whitespace tokens; the token values are never inspected. -/
def check_label_txt : Option (List String) → Bool
  | none => false
  | some lines =>
    if lines.isEmpty then false
    else lines.all (fun line =>
      pyStrip line == "" || (pySplitWS (pyStrip line)).length == 2)

/-- Embedding of `parse_tblout` (src/hmm.py lines 152-165): for every non-comment line with
at least one whitespace token, the FIRST token is inserted into the hit set
unchanged. -/
def parse_tblout : List String → Finset String
  | [] => ∅
  | line :: rest =>
    let hits := parse_tblout rest
    if startsWithHash line then hits
    else
      match pySplitWS line with
      | [] => hits
      | t :: _ => insert t hits

/-- The confusion matrix returned by `evaluate_performance`: four counts and
four derived metrics (the Python floats are modelled as rationals). -/
structure ConfusionMatrix where
  TP : ℕ
  FP : ℕ
  FN : ℕ
  TN : ℕ
  accuracy : ℚ
  precision : ℚ
  «recall» : ℚ
  f1 : ℚ
  deriving Repr, DecidableEq

/-- Embedding of `evaluate_performance` (src/hmm.py lines 181-191). Each ratio is guarded
by a truthiness test on its denominator, yielding 0 when it is zero. -/
def evaluate_performance (predicted positives negatives : Finset String) :
    ConfusionMatrix :=
  let tp := (predicted ∩ positives).card
  let fp := (predicted ∩ negatives).card
  let fn := (positives \ predicted).card
  let tn := (negatives \ predicted).card
  let total := tp + tn + fp + fn
  let acc : ℚ := if total ≠ 0 then ((tp + tn : ℕ) : ℚ) / ((total : ℕ) : ℚ) else 0
  let prec : ℚ := if tp + fp ≠ 0 then ((tp : ℕ) : ℚ) / ((tp + fp : ℕ) : ℚ) else 0
  let rcl : ℚ := if tp + fn ≠ 0 then ((tp : ℕ) : ℚ) / ((tp + fn : ℕ) : ℚ) else 0
  let f1v : ℚ := if prec + rcl ≠ 0 then 2 * prec * rcl / (prec + rcl) else 0
  ⟨tp, fp, fn, tn, acc, prec, rcl, f1v⟩

/-- Label combination of the pipeline main block (src/hmm.py lines 254-257):
`all_positives = val_positives` (the negative cohort's positives are dropped),
`all_negatives = val_negatives ∪ neg_negatives`. The result is the pair
(allPositives, allNegatives). -/
def combine_labels (valPositives valNegatives negPositives negNegatives : Finset String) :
    Finset String × Finset String :=
  (valPositives, valNegatives ∪ negNegatives)

/-- Prediction combination of the pipeline main block (src/hmm.py line 255):
the union of both cohorts' hit sets. -/
def combine_predictions (valPredicted negPredicted : Finset String) : Finset String :=
  valPredicted ∪ negPredicted

/-- Embedding of `extract_entry_name` (src/novelty_check.py lines 25-29):
`hit_id.split('/')[0]`, the substring before the first slash; pipes are not
treated specially. -/
def extract_entry_name (hit_id : String) : String :=
  (pySplitChar '/' hit_id).headD ""

/-- Accession extraction of src/filter_validation_kunitz.py lines 19-27: the
second pipe-delimited segment when the identifier contains a pipe (no check of
the first segment), otherwise the substring before the first underscore. -/
def filter_accession (rid : String) : String :=
  if pyContainsChar '|' rid then (pySplitChar '|' rid).getD 1 ""
  else (pySplitChar '_' rid).headD ""

/-- Written from the words of the spec (section 4.1), for comparison with the
two implementations above: split on the pipe; with at least two segments whose
first is a recognized database tag, return the second segment; otherwise the
substring before the first slash. The recognized tags are the UniProt ones
appearing in the data (sp, tr). -/
def resolveSpec (raw : String) : String :=
  match pySplitChar '|' raw with
  | db :: acc :: _ =>
    if db = "sp" || db = "tr" then acc else (pySplitChar '/' raw).headD ""
  | _ => (pySplitChar '/' raw).headD ""

/-- A fetched UniProt entry as inspected by `is_kunitz_annotated`
(src/novelty_check.py lines 64-89): feature descriptions, keyword values, and
the ids of Pfam-typed database cross-references. -/
structure UniProtEntry where
  featureDescriptions : List String
  keywordValues : List String
  pfamIds : List String
  deriving Repr, DecidableEq

/-- Python substring test `pat in s` for a non-empty pattern, via the count of
split segments. -/
def strContainsKunitz (s : String) : Bool :=
  ((s.splitOn "Kunitz").length != 1)

/-- Embedding of `is_kunitz_annotated` (src/novelty_check.py lines 64-89). The oracle
`fetch` returns `none` on a network failure or non-success response, in which
case the function returns `false` — indistinguishable from a fetched entry
with no Kunitz annotation. -/
def is_kunitz_annotated (fetch : String → Option UniProtEntry) (acc : String) : Bool :=
  match fetch acc with
  | none => false
  | some e =>
    e.featureDescriptions.any (fun d => strContainsKunitz d)
    || e.keywordValues.any (fun v => strContainsKunitz v)
    || e.pfamIds.any (fun i => i = "PF00014")

/-- The classification loop of `main` (src/novelty_check.py lines 91-118):
for each entry name in order, a failed accession lookup (`none`) skips the
name entirely; otherwise the name-accession pair is appended to the novel list
when `is_kunitz_annotated` returns `false`, and to the known bucket otherwise.
Returns (novel, known). -/
def novelty_classify (accLookup : String → Option String)
    (fetch : String → Option UniProtEntry) :
    List String → List (String × String) × List (String × String)
  | [] => ([], [])
  | name :: rest =>
    match accLookup name with
    | none => novelty_classify accLookup fetch rest
    | some a =>
      let p := novelty_classify accLookup fetch rest
      if is_kunitz_annotated fetch a then (p.1, (name, a) :: p.2)
      else ((name, a) :: p.1, p.2)

/-- Concrete accession oracle: the entry name X resolves to accession P1 and
every other lookup fails. -/
def accLookupX (n : String) : Option String :=
  if n = "X" then some "P1" else none

/-- Concrete accession oracle: the entry name Z resolves to accession P2 and
every other lookup fails. -/
def accLookupZ (n : String) : Option String :=
  if n = "Z" then some "P2" else none

/-- Concrete annotation oracle on which every fetch fails (network failure or
non-success response). -/
def fetchFail (_ : String) : Option UniProtEntry :=
  none

/-- Helper: the predicted set partitions a labelled set into the hits inside
it and the misses outside it. -/
theorem card_inter_sdiff_split (p s : Finset String) :
    (p ∩ s).card + (s \ p).card = s.card := by
  rw [Finset.inter_comm]
  exact Finset.card_inter_add_card_sdiff s p

/-- C9: `evaluate_performance` partitions each labelled set exactly:
TP + FN = |positives| and FP + TN = |negatives|, for every input sets. -/
theorem evaluate_performance_partitions_labels (p pos neg : Finset String) :
    (evaluate_performance p pos neg).TP + (evaluate_performance p pos neg).FN = pos.card ∧
    (evaluate_performance p pos neg).FP + (evaluate_performance p pos neg).TN = neg.card := by
  exact ⟨card_inter_sdiff_split p pos, card_inter_sdiff_split p neg⟩

/-- C8: `evaluate_performance` is deterministic in its inputs — two runs on
equal predicted, positive and negative sets return identical confusion
matrices (all four counts and all four derived metrics). -/
theorem evaluate_performance_deterministic
    (p₁ p₂ pos₁ pos₂ neg₁ neg₂ : Finset String)
    (hp : p₁ = p₂) (hpos : pos₁ = pos₂) (hneg : neg₁ = neg₂) :
    evaluate_performance p₁ pos₁ neg₁ = evaluate_performance p₂ pos₂ neg₂ := by
  rw [hp, hpos, hneg]

/-- Witness for C8 at concrete sets. -/
theorem evaluate_performance_deterministic_witness :
    evaluate_performance {"a"} {"a"} {"b"} = evaluate_performance {"a"} {"a"} {"b"} :=
  evaluate_performance_deterministic {"a"} {"a"} {"a"} {"a"} {"b"} {"b"} rfl rfl rfl

/-- C5 counterexample: a positive contributed by the negative cohort is
dropped — `all_positives` is only the validation cohort's positives, so a
cohort-two positive `b` does not appear in it. -/
theorem combine_labels_drops_negative_cohort_positives :
    (combine_labels {"a"} ∅ {"b"} ∅).1 = {"a"} ∧
    "b" ∉ (combine_labels {"a"} ∅ {"b"} ∅).1 := by
  decide

/-- C5 amended: the pipeline's combination step takes `allPositives` from the
validation cohort alone (the negative cohort's positives are discarded), while
`allNegatives` is the union of both cohorts' negatives. -/
theorem combine_labels_membership (vp vn np nn : Finset String) :
    (∀ x, x ∈ (combine_labels vp vn np nn).1 ↔ x ∈ vp) ∧
    (∀ x, x ∈ (combine_labels vp vn np nn).2 ↔ x ∈ vn ∨ x ∈ nn) := by
  refine ⟨fun x => Iff.rfl, fun x => ?_⟩
  simp [combine_labels, Finset.mem_union]

/-- C10: the pre-flight validator `check_label_txt` accepts every existing,
non-empty label file whose non-blank lines split into exactly two whitespace
tokens — the label token's value is never inspected. -/
theorem check_label_txt_ignores_label_values (lines : List String)
    (hne : lines ≠ [])
    (hfmt : ∀ l ∈ lines, pyStrip l = "" ∨ (pySplitWS (pyStrip l)).length = 2) :
    check_label_txt (some lines) = true := by
  simp only [check_label_txt]
  rw [if_neg]
  · rw [List.all_eq_true]
    intro l hl
    rcases hfmt l hl with h | h
    · simp [h]
    · simp [h]
  · simp [List.isEmpty_iff, hne]

/-- Witness for C10: a file whose second line carries the label token x — a
token that is neither 1 nor 0 — passes the check. -/
theorem check_label_txt_ignores_label_values_witness :
    check_label_txt (some ["id1 1", "id4 x"]) = true :=
  check_label_txt_ignores_label_values ["id1 1", "id4 x"] (by decide) (by decide)

/-- C1 counterexample: the line id4 x — whose label token is neither 1 nor 0 —
does not make `load_labels` fail: it classifies id4 into the negatives set. -/
theorem load_labels_accepts_unknown_label :
    load_labels ["id4 x"] = Except.ok (∅, {"id4"}) := by
  decide

/-- C1 amended: `load_labels` fails only when a non-comment, non-blank line
does not split into exactly two whitespace tokens; a line with exactly two
tokens never fails, and ANY second token other than 1 — "0" and unrecognized
tokens alike — silently places the identifier in the negatives set. -/
theorem load_labels_label_handling :
    (∀ l s t : String, startsWithHash l = false → pyStrip l ≠ "" →
      pySplitWS (pyStrip l) = [s, t] → t ≠ "1" →
      load_labels [l] = Except.ok (∅, {s})) ∧
    (∀ l : String, startsWithHash l = false → pyStrip l ≠ "" →
      (pySplitWS (pyStrip l)).length ≠ 2 →
      load_labels [l] = Except.error "Error loading labels") := by
  constructor
  · intro l s t h1 h2 h3 h4
    simp [load_labels, load_labels_go, h1, h2, h3, h4]
  · intro l h1 h2 h3
    cases hsp : pySplitWS (pyStrip l) with
    | nil => simp [load_labels, load_labels_go, h1, h2, hsp]
    | cons a as =>
      cases as with
      | nil => simp [load_labels, load_labels_go, h1, h2, hsp]
      | cons b bs =>
        cases bs with
        | nil => rw [hsp] at h3; simp at h3
        | cons c cs => simp [load_labels, load_labels_go, h1, h2, hsp]

/-- Witness for C1 amended: a two-token line with label q is classified
negative, and a three-token line is a fatal format error. -/
theorem load_labels_label_handling_witness :
    load_labels ["idZ q"] = Except.ok (∅, {"idZ"}) ∧
    load_labels ["a b c"] = Except.error "Error loading labels" :=
  ⟨load_labels_label_handling.1 "idZ q" "idZ" "q" (by decide) (by decide)
      (by decide) (by decide),
    load_labels_label_handling.2 "a b c" (by decide) (by decide) (by decide)⟩

/-- C2: `evaluate_performance` returns TP, FP, FN, TN as the four set-algebra
counts, each derived ratio per its formula with a zero denominator yielding 0
rather than an error; it reproduces the worked example
predicted = a,b,c / positives = a,b,d / negatives = c,e and the degenerate
all-empty case. -/
theorem evaluate_performance_formulas :
    (∀ (p pos neg : Finset String) (M : ConfusionMatrix),
      M = evaluate_performance p pos neg →
      M.TP = (p ∩ pos).card ∧ M.FP = (p ∩ neg).card ∧
      M.FN = (pos \ p).card ∧ M.TN = (neg \ p).card ∧
      M.accuracy = (if M.TP + M.FP + M.FN + M.TN = 0 then 0
        else ((M.TP + M.TN : ℕ) : ℚ) / ((M.TP + M.FP + M.FN + M.TN : ℕ) : ℚ)) ∧
      M.precision = (if M.TP + M.FP = 0 then 0
        else ((M.TP : ℕ) : ℚ) / ((M.TP + M.FP : ℕ) : ℚ)) ∧
      M.«recall» = (if M.TP + M.FN = 0 then 0
        else ((M.TP : ℕ) : ℚ) / ((M.TP + M.FN : ℕ) : ℚ)) ∧
      M.f1 = (if M.precision + M.«recall» = 0 then 0
        else 2 * M.precision * M.«recall» / (M.precision + M.«recall»))) ∧
    evaluate_performance {"a", "b", "c"} {"a", "b", "d"} {"c", "e"} =
      ⟨2, 1, 1, 1, 3/5, 2/3, 2/3, 2/3⟩ ∧
    evaluate_performance ∅ ∅ ∅ = ⟨0, 0, 0, 0, 0, 0, 0, 0⟩ := by
  refine ⟨?_, ?_, by simp [evaluate_performance]⟩
  · intro p pos neg M hM
    subst hM
    refine ⟨rfl, rfl, rfl, rfl, ?_, ?_, ?_, ?_⟩
    · simp only [evaluate_performance, ne_eq, ite_not]
      refine if_congr (by omega) rfl ?_
      congr 1
      push_cast
      ring
    · simp only [evaluate_performance, ne_eq, ite_not]
    · simp only [evaluate_performance, ne_eq, ite_not]
    · simp only [evaluate_performance, ne_eq, ite_not]
  · have h1 : (({"a", "b", "c"} : Finset String) ∩ {"a", "b", "d"}).card = 2 := by decide
    have h2 : (({"a", "b", "c"} : Finset String) ∩ {"c", "e"}).card = 1 := by decide
    have h3 : (({"a", "b", "d"} : Finset String) \ {"a", "b", "c"}).card = 1 := by decide
    have h4 : (({"c", "e"} : Finset String) \ {"a", "b", "c"}).card = 1 := by decide
    simp only [evaluate_performance]
    rw [h1, h2, h3, h4]
    norm_num

/-- Witness for C2 at the spec's worked example. -/
theorem evaluate_performance_formulas_witness :
    (evaluate_performance {"a", "b", "c"} {"a", "b", "d"} {"c", "e"}).TP =
      (({"a", "b", "c"} : Finset String) ∩ {"a", "b", "d"}).card ∧
    (evaluate_performance {"a", "b", "c"} {"a", "b", "d"} {"c", "e"}).FP =
      (({"a", "b", "c"} : Finset String) ∩ {"c", "e"}).card ∧
    (evaluate_performance {"a", "b", "c"} {"a", "b", "d"} {"c", "e"}).FN =
      (({"a", "b", "d"} : Finset String) \ {"a", "b", "c"}).card ∧
    (evaluate_performance {"a", "b", "c"} {"a", "b", "d"} {"c", "e"}).TN =
      (({"c", "e"} : Finset String) \ {"a", "b", "c"}).card ∧
    (evaluate_performance {"a", "b", "c"} {"a", "b", "d"} {"c", "e"}).accuracy =
      (if (evaluate_performance {"a", "b", "c"} {"a", "b", "d"} {"c", "e"}).TP +
          (evaluate_performance {"a", "b", "c"} {"a", "b", "d"} {"c", "e"}).FP +
          (evaluate_performance {"a", "b", "c"} {"a", "b", "d"} {"c", "e"}).FN +
          (evaluate_performance {"a", "b", "c"} {"a", "b", "d"} {"c", "e"}).TN = 0 then 0
        else (((evaluate_performance {"a", "b", "c"} {"a", "b", "d"} {"c", "e"}).TP +
            (evaluate_performance {"a", "b", "c"} {"a", "b", "d"} {"c", "e"}).TN : ℕ) : ℚ) /
          (((evaluate_performance {"a", "b", "c"} {"a", "b", "d"} {"c", "e"}).TP +
            (evaluate_performance {"a", "b", "c"} {"a", "b", "d"} {"c", "e"}).FP +
            (evaluate_performance {"a", "b", "c"} {"a", "b", "d"} {"c", "e"}).FN +
            (evaluate_performance {"a", "b", "c"} {"a", "b", "d"} {"c", "e"}).TN : ℕ) : ℚ)) ∧
    (evaluate_performance {"a", "b", "c"} {"a", "b", "d"} {"c", "e"}).precision =
      (if (evaluate_performance {"a", "b", "c"} {"a", "b", "d"} {"c", "e"}).TP +
          (evaluate_performance {"a", "b", "c"} {"a", "b", "d"} {"c", "e"}).FP = 0 then 0
        else (((evaluate_performance {"a", "b", "c"} {"a", "b", "d"} {"c", "e"}).TP : ℕ) : ℚ) /
          (((evaluate_performance {"a", "b", "c"} {"a", "b", "d"} {"c", "e"}).TP +
            (evaluate_performance {"a", "b", "c"} {"a", "b", "d"} {"c", "e"}).FP : ℕ) : ℚ)) ∧
    (evaluate_performance {"a", "b", "c"} {"a", "b", "d"} {"c", "e"}).«recall» =
      (if (evaluate_performance {"a", "b", "c"} {"a", "b", "d"} {"c", "e"}).TP +
          (evaluate_performance {"a", "b", "c"} {"a", "b", "d"} {"c", "e"}).FN = 0 then 0
        else (((evaluate_performance {"a", "b", "c"} {"a", "b", "d"} {"c", "e"}).TP : ℕ) : ℚ) /
          (((evaluate_performance {"a", "b", "c"} {"a", "b", "d"} {"c", "e"}).TP +
            (evaluate_performance {"a", "b", "c"} {"a", "b", "d"} {"c", "e"}).FN : ℕ) : ℚ)) ∧
    (evaluate_performance {"a", "b", "c"} {"a", "b", "d"} {"c", "e"}).f1 =
      (if (evaluate_performance {"a", "b", "c"} {"a", "b", "d"} {"c", "e"}).precision +
          (evaluate_performance {"a", "b", "c"} {"a", "b", "d"} {"c", "e"}).«recall» = 0 then 0
        else 2 * (evaluate_performance {"a", "b", "c"} {"a", "b", "d"} {"c", "e"}).precision *
          (evaluate_performance {"a", "b", "c"} {"a", "b", "d"} {"c", "e"}).«recall» /
          ((evaluate_performance {"a", "b", "c"} {"a", "b", "d"} {"c", "e"}).precision +
            (evaluate_performance {"a", "b", "c"} {"a", "b", "d"} {"c", "e"}).«recall»)) :=
  evaluate_performance_formulas.1 {"a", "b", "c"} {"a", "b", "d"} {"c", "e"}
    (evaluate_performance {"a", "b", "c"} {"a", "b", "d"} {"c", "e"}) rfl

/-- C4 counterexample: an identifier labelled positive by one cohort and
negative by the other survives the combination step, and `evaluate_performance`
still returns a confusion matrix on the overlapping sets — no
LabelConflictError exists. -/
theorem evaluate_performance_accepts_conflicts :
    combine_labels {"a"} ∅ ∅ {"a"} = ({"a"}, {"a"}) ∧
    (({"a"} : Finset String) ∩ {"a"}) ≠ ∅ ∧
    evaluate_performance ∅ {"a"} {"a"} = ⟨0, 0, 1, 1, 1/2, 0, 0, 0⟩ := by
  refine ⟨by decide, by decide, ?_⟩
  have h1 : ((∅ : Finset String) ∩ {"a"}).card = 0 := by decide
  have h3 : (({"a"} : Finset String) \ ∅).card = 1 := by decide
  simp only [evaluate_performance]
  rw [h1, h3]
  norm_num

/-- C4 amended: the code never checks the label sets for disjointness; an
identifier labelled both positive and negative is silently counted on both
sides of the matrix — among TP and FP when predicted, among FN and TN when
not. -/
theorem evaluate_performance_no_conflict_check
    (p pos neg : Finset String) (x : String) (hpos : x ∈ pos) (hneg : x ∈ neg) :
    (x ∈ p → 1 ≤ (evaluate_performance p pos neg).TP ∧
      1 ≤ (evaluate_performance p pos neg).FP) ∧
    (x ∉ p → 1 ≤ (evaluate_performance p pos neg).FN ∧
      1 ≤ (evaluate_performance p pos neg).TN) := by
  constructor
  · intro hxp
    exact ⟨Finset.card_pos.mpr ⟨x, Finset.mem_inter.mpr ⟨hxp, hpos⟩⟩,
      Finset.card_pos.mpr ⟨x, Finset.mem_inter.mpr ⟨hxp, hneg⟩⟩⟩
  · intro hxp
    exact ⟨Finset.card_pos.mpr ⟨x, Finset.mem_sdiff.mpr ⟨hpos, hxp⟩⟩,
      Finset.card_pos.mpr ⟨x, Finset.mem_sdiff.mpr ⟨hneg, hxp⟩⟩⟩

/-- Witness for C4 amended at a fully conflicting concrete instance. -/
theorem evaluate_performance_no_conflict_check_witness :
    ("a" ∈ ({"a"} : Finset String) → 1 ≤ (evaluate_performance {"a"} {"a"} {"a"}).TP ∧
      1 ≤ (evaluate_performance {"a"} {"a"} {"a"}).FP) ∧
    ("a" ∉ ({"a"} : Finset String) → 1 ≤ (evaluate_performance {"a"} {"a"} {"a"}).FN ∧
      1 ≤ (evaluate_performance {"a"} {"a"} {"a"}).TN) :=
  evaluate_performance_no_conflict_check {"a"} {"a"} {"a"} "a" (by decide) (by decide)

/-- C3 counterexample: neither identifier extraction in the code implements
the spec's resolve algorithm — `extract_entry_name` leaves a pipe-delimited
identifier whole, and the validation filter truncates a range-suffixed entry
name at its underscore; the algorithm written from the spec's words gives the
spec's answers on the same inputs. -/
theorem resolver_spec_examples_fail :
    extract_entry_name "sp|P84875|PCPI_SABMA" ≠ "P84875" ∧
    filter_accession "APLP2_HUMAN/309-361" ≠ "APLP2_HUMAN" ∧
    resolveSpec "sp|P84875|PCPI_SABMA" = "P84875" ∧
    resolveSpec "APLP2_HUMAN/309-361" = "APLP2_HUMAN" := by
  decide

/-- Helper: splitting at a separator that never occurs returns the whole list
as the single segment. -/
theorem splitPredList_eq_single (p : Char → Bool) :
    ∀ l : List Char, (∀ c ∈ l, p c = false) → splitPredList p l = [l] := by
  intro l
  induction l with
  | nil => intro _; rfl
  | cons x xs ih =>
    intro h
    have hx : p x = false := h x (List.mem_cons_self x xs)
    have hxs : splitPredList p xs = [xs] :=
      ih (fun c hc => h c (List.mem_cons_of_mem x hc))
    simp [splitPredList, hx, hxs]

/-- C3 amended: the repository has two divergent resolvers rather than one.
`extract_entry_name` always returns the substring before the first slash (the
whole string when it has no slash) and never treats pipes specially; the
validation filter returns the second pipe segment whenever a pipe occurs (with
no database-tag whitelist) and otherwise the substring before the first
underscore, not the first slash. -/
theorem two_divergent_resolvers :
    extract_entry_name "sp|P84875|PCPI_SABMA" = "sp|P84875|PCPI_SABMA" ∧
    extract_entry_name "APLP2_HUMAN/309-361" = "APLP2_HUMAN" ∧
    extract_entry_name "P12345" = "P12345" ∧
    filter_accession "sp|P84875|PCPI_SABMA" = "P84875" ∧
    filter_accession "APLP2_HUMAN/309-361" = "APLP2" ∧
    filter_accession "P12345" = "P12345" ∧
    (∀ s : String, (∀ c ∈ s.data, c ≠ '/') → extract_entry_name s = s) := by
  refine ⟨by decide, by decide, by decide, by decide, by decide, by decide, ?_⟩
  intro s h
  have hs : ∀ c ∈ s.data, (fun x => decide (x = '/')) c = false := by
    intro c hc
    simp [h c hc]
  unfold extract_entry_name pySplitChar
  rw [splitPredList_eq_single _ s.data hs]
  rfl

/-- Witness for C3 amended: a bare accession with no slash resolves to itself. -/
theorem two_divergent_resolvers_witness :
    extract_entry_name "P99999" = "P99999" :=
  two_divergent_resolvers.2.2.2.2.2.2 "P99999" (by decide)

/-- C6 counterexample: `parse_tblout` stores a pipe-delimited first token raw —
the canonical accession P84875 is not a member of the returned hit set. -/
theorem parse_tblout_stores_raw_token :
    parse_tblout ["sp|P84875|PCPI_SABMA - Kunitz 1e-30"] = {"sp|P84875|PCPI_SABMA"} ∧
    "P84875" ∉ parse_tblout ["sp|P84875|PCPI_SABMA - Kunitz 1e-30"] := by
  decide

/-- C6 amended: the hit set of `parse_tblout` is exactly the set of UNRESOLVED
first whitespace tokens of the non-comment lines — no canonicalization is
applied before insertion. -/
theorem parse_tblout_membership (lines : List String) (x : String) :
    x ∈ parse_tblout lines ↔
      ∃ l, l ∈ lines ∧ startsWithHash l = false ∧ (pySplitWS l).head? = some x := by
  induction lines with
  | nil => simp [parse_tblout]
  | cons line rest ih =>
    simp only [parse_tblout]
    by_cases h : startsWithHash line = true
    · rw [if_pos h, ih]
      constructor
      · rintro ⟨l, hl, hh, hx⟩
        exact ⟨l, List.mem_cons_of_mem _ hl, hh, hx⟩
      · rintro ⟨l, hl, hh, hx⟩
        rcases List.mem_cons.mp hl with rfl | hl
        · rw [h] at hh; cases hh
        · exact ⟨l, hl, hh, hx⟩
    · have hfalse : startsWithHash line = false := by
        cases hb : startsWithHash line
        · rfl
        · exact absurd hb h
      rw [if_neg h]
      cases hsp : pySplitWS line with
      | nil =>
        rw [ih]
        constructor
        · rintro ⟨l, hl, hh, hx⟩
          exact ⟨l, List.mem_cons_of_mem _ hl, hh, hx⟩
        · rintro ⟨l, hl, hh, hx⟩
          rcases List.mem_cons.mp hl with rfl | hl
          · rw [hsp] at hx; cases hx
          · exact ⟨l, hl, hh, hx⟩
      | cons t ts =>
        rw [Finset.mem_insert, ih]
        constructor
        · rintro (rfl | ⟨l, hl, hh, hx⟩)
          · exact ⟨line, List.mem_cons_self _ _, hfalse, by rw [hsp]; rfl⟩
          · exact ⟨l, List.mem_cons_of_mem _ hl, hh, hx⟩
        · rintro ⟨l, hl, hh, hx⟩
          rcases List.mem_cons.mp hl with rfl | hl
          · left
            rw [hsp] at hx
            simp only [List.head?_cons, Option.some.injEq] at hx
            exact hx.symm
          · right; exact ⟨l, hl, hh, hx⟩

/-- Helper: every pair in the novel bucket was produced by a successful
accession lookup followed by a negative annotation verdict. -/
theorem novelty_classify_novel_sound
    (f : String → Option String) (g : String → Option UniProtEntry) :
    ∀ (names : List String) (q : String × String),
      q ∈ (novelty_classify f g names).1 →
      f q.1 = some q.2 ∧ is_kunitz_annotated g q.2 = false := by
  intro names
  induction names with
  | nil => intro q hq; simp [novelty_classify] at hq
  | cons name rest ih =>
    intro q hq
    simp only [novelty_classify] at hq
    cases hf : f name with
    | none => rw [hf] at hq; exact ih q hq
    | some a =>
      rw [hf] at hq
      dsimp only at hq
      by_cases hk : is_kunitz_annotated g a = true
      · rw [if_pos hk] at hq
        exact ih q hq
      · rw [if_neg hk] at hq
        rcases List.mem_cons.mp hq with rfl | hq
        · exact ⟨hf, Bool.eq_false_iff.mpr hk⟩
        · exact ih q hq

/-- Helper: every pair in the known bucket was produced by a successful
accession lookup followed by a positive annotation verdict. -/
theorem novelty_classify_known_sound
    (f : String → Option String) (g : String → Option UniProtEntry) :
    ∀ (names : List String) (q : String × String),
      q ∈ (novelty_classify f g names).2 →
      f q.1 = some q.2 ∧ is_kunitz_annotated g q.2 = true := by
  intro names
  induction names with
  | nil => intro q hq; simp [novelty_classify] at hq
  | cons name rest ih =>
    intro q hq
    simp only [novelty_classify] at hq
    cases hf : f name with
    | none => rw [hf] at hq; exact ih q hq
    | some a =>
      rw [hf] at hq
      dsimp only at hq
      by_cases hk : is_kunitz_annotated g a = true
      · rw [if_pos hk] at hq
        rcases List.mem_cons.mp hq with rfl | hq
        · exact ⟨hf, hk⟩
        · exact ih q hq
      · rw [if_neg hk] at hq
        exact ih q hq

/-- Helper: a processed name whose accession lookup succeeds and whose
annotation verdict is negative lands in the novel bucket. -/
theorem novelty_classify_novel_complete
    (f : String → Option String) (g : String → Option UniProtEntry) :
    ∀ (names : List String) (n a : String), n ∈ names → f n = some a →
      is_kunitz_annotated g a = false →
      (n, a) ∈ (novelty_classify f g names).1 := by
  intro names
  induction names with
  | nil => intro n a hn; cases hn
  | cons name rest ih =>
    intro n a hn hf hk
    simp only [novelty_classify]
    rcases List.mem_cons.mp hn with rfl | hn
    · rw [hf]
      dsimp only
      rw [hk]
      simp
    · cases hfm : f name with
      | none =>
        dsimp only
        exact ih n a hn hf hk
      | some b =>
        dsimp only
        by_cases hkb : is_kunitz_annotated g b = true
        · rw [if_pos hkb]
          exact ih n a hn hf hk
        · rw [if_neg hkb]
          exact List.mem_cons_of_mem _ (ih n a hn hf hk)

/-- C7 counterexample: the entry name X has a working accession lookup, but
the annotation fetch for its accession P1 fails (the oracle returns none);
`novelty_classify` nevertheless counts X as NOVEL instead of excluding it. -/
theorem novelty_counts_failed_fetch_as_novel :
    fetchFail "P1" = none ∧
    novelty_classify accLookupX fetchFail ["X"] = ([("X", "P1")], []) := by
  decide

/-- C7 amended: only a FAILED ACCESSION LOOKUP excludes an identifier from
both the known and the novel buckets (and is never fatal); a failed
annotation fetch is instead treated as not annotated, so the identifier is
counted as novel. -/
theorem novelty_failure_handling
    (f : String → Option String) (g : String → Option UniProtEntry) :
    (∀ (names : List String) (n : String), f n = none → ∀ a : String,
      (n, a) ∉ (novelty_classify f g names).1 ∧
      (n, a) ∉ (novelty_classify f g names).2) ∧
    (∀ (names : List String) (n a : String), n ∈ names → f n = some a →
      g a = none → (n, a) ∈ (novelty_classify f g names).1) := by
  constructor
  · intro names n hf a
    constructor
    · intro hmem
      have := (novelty_classify_novel_sound f g names (n, a) hmem).1
      rw [hf] at this
      cases this
    · intro hmem
      have := (novelty_classify_known_sound f g names (n, a) hmem).1
      rw [hf] at this
      cases this
  · intro names n a hn hf hg
    have hk : is_kunitz_annotated g a = false := by
      simp [is_kunitz_annotated, hg]
    exact novelty_classify_novel_complete f g names n a hn hf hk

/-- Witness for C7 amended: Y (failed accession lookup) is in neither bucket;
Z (accession found, annotation fetch failed) is in the novel bucket. -/
theorem novelty_failure_handling_witness :
    (("Y", "PA") ∉ (novelty_classify (fun _ => none) fetchFail ["Y"]).1 ∧
      ("Y", "PA") ∉ (novelty_classify (fun _ => none) fetchFail ["Y"]).2) ∧
    ("Z", "P2") ∈ (novelty_classify accLookupZ fetchFail ["Z"]).1 :=
  ⟨(novelty_failure_handling (fun _ => none) fetchFail).1 ["Y"] "Y" rfl "PA",
    (novelty_failure_handling accLookupZ fetchFail).2 ["Z"] "Z" "P2"
      (by decide) (by decide) rfl⟩

end KunitzHMM
